import Mathlib

/-!
Verification of the wso2-api-shield behavioral-aggregation, risk-scoring and
streaming-detection subsystem, shallowly embedded from the Python sources:

  - src/day4_attack_patterns.py  (window aggregation and risk scoring)
  - src/day6_stream_detector.py  (streaming detection loop and alert sink)
  - src/api/app.py               (single-event scoring facade)

Timestamps are modelled as seconds since the epoch (natural numbers);
classifier probabilities as rationals; the opaque trained classifier as an
arbitrary function from rows to rationals.
-/

namespace WSO2Shield

/-- A parsed row of the processed log, as consumed by day4_attack_patterns.py
after timestamp coercion. Fields beyond those used by the aggregation
(user_agent, raw lines, ...) are omitted: the aggregation never reads them. -/
structure Event where
  timestamp : Nat
  client_ip : String
  api_name : String
  http_method : String
  resource : String
  status_code : Int
  latency_ms : Int
  payload_size : Int
deriving DecidableEq, Repr

/-- day4:21 `df["minute_bucket"] = df["timestamp"].dt.floor("min")` —
the minute bucket of an event, as the number of whole minutes. -/
def minuteBucket (e : Event) : Nat := e.timestamp / 60

/-- Whether two events fall in the same (client_ip, minute_bucket) group,
the groupby key of day4:28, day4:44 and day4:59. -/
def sameBucket (x e : Event) : Bool :=
  x.client_ip == e.client_ip && minuteBucket x == minuteBucket e

/-- day4:27-33 — requests per IP per minute, merged back onto each event:
the value of column req_count_1min on event `e` of frame `df`. -/
def reqCountBucket (df : List Event) (e : Event) : Nat :=
  (df.filter (fun x => sameBucket x e)).length

/-- day4:43-49 — unique endpoints per IP per minute (`nunique` of resource),
the value of column unique_endpoints_1min on event `e` of frame `df`. -/
def uniqueEndpointsBucket (df : List Event) (e : Event) : Nat :=
  ((df.filter (fun x => sameBucket x e)).map (fun x => x.resource)).dedup.length

/-- day4:56-64 — count of events with status_code in {401, 403} per IP per
minute, the value of column auth_fails_1min on event `e` of frame `df`. -/
def authFailsBucket (df : List Event) (e : Event) : Nat :=
  (df.filter (fun x => sameBucket x e)).countP
    (fun x => x.status_code == 401 || x.status_code == 403)

/-- day4:37 — burst threshold on req_count_1min. -/
def BURST_THRESHOLD : Nat := 30

/-- day4:50 — scan threshold on unique_endpoints_1min. -/
def SCAN_THRESHOLD : Nat := 8

/-- day4:65 — auth-abuse threshold on auth_fails_1min. -/
def AUTH_FAIL_THRESHOLD : Nat := 10

/-- day4:72 — weight of burst_flag in the risk score. -/
def W_b : Int := 30

/-- day4:73 — weight of scan_flag in the risk score. -/
def W_s : Int := 40

/-- day4:74 — weight of auth_abuse_flag in the risk score. -/
def W_a : Int := 30

/-- day4:81 — risk-score cutoff for attack_detected. -/
def RISK_THRESHOLD : Int := 60

/-- day4:37 `(df["req_count_1min"] >= 30).astype(int)`. -/
def burstFlag (c : Nat) : Int := if BURST_THRESHOLD ≤ c then 1 else 0

/-- day4:50 `(df["unique_endpoints_1min"] >= 8).astype(int)`. -/
def scanFlag (u : Nat) : Int := if SCAN_THRESHOLD ≤ u then 1 else 0

/-- day4:65 `(df["auth_fails_1min"] >= 10).astype(int)`. -/
def authAbuseFlag (a : Nat) : Int := if AUTH_FAIL_THRESHOLD ≤ a then 1 else 0

/-- pandas `Series.clip(lo, hi)` on a single value. -/
def clip (x lo hi : Int) : Int := max lo (min x hi)

/-- day4:71-78 — the weighted flag sum clipped to [0, 100], as a function of
the three window counters (request count, distinct endpoints, auth fails). -/
def attackRiskScore (c u a : Nat) : Int :=
  clip (burstFlag c * W_b + scanFlag u * W_s + authAbuseFlag a * W_a) 0 100

/-- day4:81 `(df["attack_risk_score"] >= 60)`. -/
def attackDetected (c u a : Nat) : Bool :=
  decide (RISK_THRESHOLD ≤ attackRiskScore c u a)

/-- A raw row of the processed-log CSV as read by day4:14 before cleaning:
the timestamp column may fail to parse (day4:17 coerces parse failures to
NaT). Only the fields the day4 aggregation reads are modelled. -/
structure RawEvent where
  timestamp : Option Nat
  client_ip : String
  api_name : String
  http_method : String
  resource : String
  status_code : Int
  latency_ms : Int
  payload_size : Int
deriving DecidableEq, Repr

/-- A raw row parses to an Event exactly when its timestamp parsed. -/
def toEvent (r : RawEvent) : Option Event :=
  match r.timestamp with
  | some t => some ⟨t, r.client_ip, r.api_name, r.http_method, r.resource,
      r.status_code, r.latency_ms, r.payload_size⟩
  | none => none

/-- day4:17-18 — coerce timestamps and drop rows whose timestamp failed to
parse; rows with a valid timestamp survive in order. (The subsequent
sort_values("timestamp") does not change any per-group count and is not
needed by the properties below.) -/
def day4Clean (rows : List RawEvent) : List Event := rows.filterMap toEvent

/-- day6:14 `ALERT_THRESHOLD = 0.80`. -/
def ALERT_THRESHOLD : ℚ := 80 / 100

/-- A raw row of the enriched CSV as read by day6:44. The 13 feature columns
of day6:50-56 may each be missing (NaN); timestamp and client_ip are not in
that feature list and are kept as plain strings. -/
structure RawRow where
  timestamp : String
  client_ip : String
  api_name : Option String
  http_method : Option String
  resource : Option String
  status_code : Option Int
  latency_ms : Option Int
  payload_size : Option Int
  req_count_bucket : Option Int
  unique_endpoints_bucket : Option Int
  auth_fails_bucket : Option Int
  burst_flag : Option Int
  scan_flag : Option Int
  auth_abuse_flag : Option Int
  attack_risk_score : Option Int
deriving DecidableEq, Repr

/-- day6:59 `df = df.dropna(subset=feature_cols)` — a row survives iff every
one of the 13 feature columns is present. -/
def rowComplete (r : RawRow) : Bool :=
  r.api_name.isSome && r.http_method.isSome && r.resource.isSome &&
  r.status_code.isSome && r.latency_ms.isSome && r.payload_size.isSome &&
  r.req_count_bucket.isSome && r.unique_endpoints_bucket.isSome &&
  r.auth_fails_bucket.isSome && r.burst_flag.isSome && r.scan_flag.isSome &&
  r.auth_abuse_flag.isSome && r.attack_risk_score.isSome

/-- day6:84-88 — the suggested_action string stored in a live alert. -/
def day6Action (p : ℚ) : String :=
  if 95 / 100 ≤ p then "BLOCK"
  else if 85 / 100 ≤ p then "THROTTLE"
  else "MONITOR"

/-- day6:75-89 — one persisted live alert. -/
structure Alert where
  timestamp : String
  client_ip : String
  api_name : String
  method : String
  resource : String
  status_code : Int
  risk_score : Int
  ml_probability : ℚ
  suggested_action : String
deriving DecidableEq, Repr

/-- day6:75-89 — the alert dict built from a row and its probability. On the
rows the loop reaches, every feature field is present, so the defaults of
getD are never read. -/
def mkAlert (r : RawRow) (p : ℚ) : Alert where
  timestamp := r.timestamp
  client_ip := r.client_ip
  api_name := r.api_name.getD ""
  method := r.http_method.getD ""
  resource := r.resource.getD ""
  status_code := r.status_code.getD 0
  risk_score := r.attack_risk_score.getD 0
  ml_probability := p
  suggested_action := day6Action p

/-- day6:64-91 — the alert accumulation loop: iterate the cleaned rows in
order, classify each, and append an alert exactly when the probability
reaches ALERT_THRESHOLD. `clf` stands for the opaque trained model of
day6:71 (`model.predict_proba(X)[0][1]`). -/
def day6AlertsFold (clf : RawRow → ℚ) (rows : List RawRow) : List Alert :=
  rows.foldl
    (fun acc r => if ALERT_THRESHOLD ≤ clf r then acc ++ [mkAlert r (clf r)] else acc)
    []

/-- The observable outcome of one day6 run: how many rows the streaming loop
processed, and the alert list it accumulated. -/
structure Day6Result where
  processed_total : Nat
  alerts : List Alert
deriving DecidableEq, Repr

/-- day6:32-105 — the whole run. When the model file is missing (day6:38-41)
main returns before loading the dataset: nothing is processed and no alert
exists. Otherwise the dataset is cleaned (day6:59) and every surviving row
is fed through the loop. -/
def day6Run (model : Option (RawRow → ℚ)) (rows : List RawRow) : Day6Result :=
  match model with
  | none => ⟨0, []⟩
  | some clf =>
      let processed := rows.filter rowComplete
      ⟨processed.length, day6AlertsFold clf processed⟩

/-- day6:75-89 — the column order of the persisted live_alerts.csv, which is
the key order of the alert dict. -/
def day6AlertColumns : List String :=
  ["timestamp", "client_ip", "api_name", "method", "resource",
   "status_code", "risk_score", "ml_probability", "suggested_action"]

/-- The spec names the second Alert column client_identity; the code column
holding the client identity is client_ip. -/
def specFieldToCode (s : String) : String :=
  if s = "client_identity" then "client_ip" else s

/-- Modelled from the spec (refinement side of C8): the column order the spec
prescribes for the persisted Alert log. -/
def specAlertColumns : List String :=
  ["timestamp", "client_identity", "api_name", "method", "resource",
   "status_code", "risk_score", "ml_probability", "suggested_action"]

/-- The CSV cells of one alert row, in column order. -/
def alertToRow (a : Alert) : List String :=
  [a.timestamp, a.client_ip, a.api_name, a.method, a.resource,
   toString a.status_code, toString a.risk_score, toString a.ml_probability,
   a.suggested_action]

/-- app.py:30-46 — the /detect request body; pydantic rejects requests with a
missing field, so every field is plain. -/
structure DetectRequest where
  api_name : String
  http_method : String
  resource : String
  status_code : Int
  latency_ms : Int
  payload_size : Int
  req_count_bucket : Int
  unique_endpoints_bucket : Int
  auth_fails_bucket : Int
  burst_flag : Int
  scan_flag : Int
  auth_abuse_flag : Int
  attack_risk_score : Int
deriving DecidableEq, Repr

/-- app.py:48-53 — the /detect response. The wall-clock timestamp field is
omitted: it carries no information about the scoring. -/
structure DetectResponse where
  attack_probability : ℚ
  predicted_attack : Bool
  suggested_action : String
  model_version : String
deriving DecidableEq, Repr

/-- app.py:90-98 — the suggested-action band selection of the facade. -/
def appAction (p : ℚ) : String :=
  if 95 / 100 ≤ p then "BLOCK_IP_AND_REVOKE_TOKEN"
  else if 85 / 100 ≤ p then "THROTTLE_AND_STEPUP_AUTH"
  else if 70 / 100 ≤ p then "TEMP_RATE_LIMIT_MONITOR"
  else "ALLOW"

/-- app.py:75-106 — the /detect handler. `model` is the optional loaded
classifier (app.py:55-64 leaves it None when the model file is missing);
app.py:88 sets predicted_attack to `prob >= 0.5`. -/
def detect (model : Option (DetectRequest → ℚ)) (req : DetectRequest) : DetectResponse :=
  match model with
  | none => ⟨0, false, "MODEL_NOT_LOADED", "none"⟩
  | some m =>
      let p := m req
      ⟨p, decide ((1 : ℚ) / 2 ≤ p), appAction p, "attack_model.pkl"⟩

/-- The spec scenario of C2: the k-th of 20 requests from one client, inside
one window (seconds 1000-1009 of the epoch, all in minute bucket 16), cycling
through 6 distinct endpoints, the first 8 returning status 401. -/
def specScenarioEvent (k : Nat) : Event :=
  ⟨1000 + k % 10, "91.210.10.4", "UserAPI", "GET", "/e" ++ toString (k % 6),
   if k < 8 then 401 else 200, 300, 900⟩

/-- The 20 events of the spec scenario of C2. -/
def specScenario : List Event := (List.range 20).map specScenarioEvent

/-- A scenario sized to the thresholds the code actually uses: the k-th of 30
requests from one client inside one minute bucket, cycling through 8 distinct
endpoints, the first 10 returning status 401. -/
def codeScenarioEvent (k : Nat) : Event :=
  ⟨2000 + k % 10, "91.210.10.4", "UserAPI", "GET", "/e" ++ toString (k % 8),
   if k < 10 then 401 else 200, 300, 900⟩

/-- The 30 events of the code-scheme scenario. -/
def codeScenario : List Event := (List.range 30).map codeScenarioEvent

/-- Three concrete events of one client in one minute bucket. -/
def evA : Event := ⟨1000, "91.210.10.4", "UserAPI", "GET", "/user/login", 401, 100, 500⟩

/-- Second event of the same client and minute bucket as evA. -/
def evB : Event := ⟨1005, "91.210.10.4", "UserAPI", "GET", "/user/profile", 200, 100, 500⟩

/-- Third event of the same client and minute bucket as evA. -/
def evC : Event := ⟨1010, "91.210.10.4", "UserAPI", "POST", "/user/login", 401, 100, 500⟩

/-- A constant stand-in for the opaque trained classifier. -/
def clfConst : RawRow → ℚ := fun _ => 9 / 10

/-- A row of the enriched CSV with every feature column present. -/
def fullRow : RawRow :=
  ⟨"2026-01-01 00:00:00", "91.210.10.4", some "AdminAPI", some "GET",
   some "/admin/metrics", some 401, some 900, some 1500, some 35, some 9,
   some 12, some 1, some 1, some 1, some 95⟩

/-- A malformed row: the api_name feature column is missing. -/
def badRow1 : RawRow :=
  ⟨"2026-01-01 00:00:01", "1.2.3.4", none, some "GET", some "/a", some 200,
   some 1, some 1, some 1, some 1, some 0, some 0, some 0, some 0, some 0⟩

/-- A second malformed row: the http_method feature column is missing. -/
def badRow2 : RawRow :=
  ⟨"2026-01-01 00:00:02", "5.6.7.8", some "UserAPI", none, some "/b", some 200,
   some 1, some 1, some 1, some 1, some 0, some 0, some 0, some 0, some 0⟩

/-- A concrete /detect request body. -/
def req0 : DetectRequest :=
  ⟨"UserAPI", "GET", "/user/login", 200, 100, 500, 1, 1, 0, 0, 0, 0, 0⟩

end WSO2Shield

namespace WSO2Shield

/-- Claim C1: the risk scorer is a pure function of the window counters:
burst_flag is 1 iff request_count reaches BURST_THRESHOLD (else 0), likewise
scan_flag and auth_abuse_flag for their thresholds; the risk score is the
weighted flag sum clipped to [0, 100], hence always lies in [0, 100]; and
attack_detected holds iff the risk score reaches RISK_THRESHOLD. -/
theorem c1_risk_scorer_flags_and_bounds (c u a : Nat) :
    (burstFlag c = 1 ↔ BURST_THRESHOLD ≤ c) ∧
    (burstFlag c = 0 ↔ c < BURST_THRESHOLD) ∧
    (scanFlag u = 1 ↔ SCAN_THRESHOLD ≤ u) ∧
    (scanFlag u = 0 ↔ u < SCAN_THRESHOLD) ∧
    (authAbuseFlag a = 1 ↔ AUTH_FAIL_THRESHOLD ≤ a) ∧
    (authAbuseFlag a = 0 ↔ a < AUTH_FAIL_THRESHOLD) ∧
    attackRiskScore c u a =
      clip (burstFlag c * W_b + scanFlag u * W_s + authAbuseFlag a * W_a) 0 100 ∧
    0 ≤ attackRiskScore c u a ∧ attackRiskScore c u a ≤ 100 ∧
    (attackDetected c u a = true ↔ RISK_THRESHOLD ≤ attackRiskScore c u a) := by
  refine ⟨?_, ?_, ?_, ?_, ?_, ?_, rfl, ?_, ?_, ?_⟩
  · unfold burstFlag; split_ifs with h <;> omega
  · unfold burstFlag; split_ifs with h <;> omega
  · unfold scanFlag; split_ifs with h <;> omega
  · unfold scanFlag; split_ifs with h <;> omega
  · unfold authAbuseFlag; split_ifs with h <;> omega
  · unfold authAbuseFlag; split_ifs with h <;> omega
  · unfold attackRiskScore clip; exact le_max_left 0 _
  · unfold attackRiskScore clip
    exact max_le (by norm_num) (min_le_right _ _)
  · unfold attackDetected; exact decide_eq_true_iff

theorem day6AlertsFold_spec (clf : RawRow → ℚ) (rows : List RawRow) :
    day6AlertsFold clf rows
      = (rows.filter (fun r => decide (ALERT_THRESHOLD ≤ clf r))).map
          (fun r => mkAlert r (clf r)) := by
  have go : ∀ (l : List RawRow) (acc : List Alert),
      l.foldl
        (fun acc r => if ALERT_THRESHOLD ≤ clf r then acc ++ [mkAlert r (clf r)] else acc)
        acc
      = acc ++ (l.filter (fun r => decide (ALERT_THRESHOLD ≤ clf r))).map
          (fun r => mkAlert r (clf r)) := by
    intro l
    induction l with
    | nil => intro acc; simp
    | cons r l ih =>
        intro acc
        by_cases h : ALERT_THRESHOLD ≤ clf r
        · simp [List.foldl_cons, List.filter_cons, h, ih]
        · simp [List.foldl_cons, List.filter_cons, h, ih]
  simpa [day6AlertsFold] using go rows []

theorem filter_self_idem {α : Type} (p : α → Bool) (l : List α) :
    (l.filter p).filter p = l.filter p := by
  induction l with
  | nil => rfl
  | cons a l ih =>
      by_cases h : p a = true
      · simp [List.filter_cons, h, ih]
      · simp [List.filter_cons, h, ih]

theorem day4Clean_drop_malformed (raws : List RawEvent) :
    day4Clean raws = day4Clean (raws.filter (fun r => r.timestamp.isSome)) := by
  induction raws with
  | nil => rfl
  | cons r l ih =>
      cases h : r.timestamp with
      | none =>
          simp [day4Clean, List.filterMap_cons, List.filter_cons, toEvent, h] at ih ⊢
          exact ih
      | some t =>
          simp [day4Clean, List.filterMap_cons, List.filter_cons, toEvent, h] at ih ⊢
          exact ih

/-- Claim C2 counterexample: the spec scenario — 20 requests from one client
in one window, 6 distinct endpoints, 8 events with status 401 — aggregates to
counters (20, 6, 8) under the code, but the code never uses thresholds
(15, 5, 5) or weights (40, 35, 25): its thresholds are (30, 8, 10) with
weights (30, 40, 30), so every flag is 0, the risk score is 0 and no attack
is detected, against the claimed flags (1, 1, 1), score 100, attack true. -/
theorem c2_spec_scenario_counterexample :
    reqCountBucket specScenario (specScenarioEvent 0) = 20 ∧
    uniqueEndpointsBucket specScenario (specScenarioEvent 0) = 6 ∧
    authFailsBucket specScenario (specScenarioEvent 0) = 8 ∧
    burstFlag 20 = 0 ∧ scanFlag 6 = 0 ∧ authAbuseFlag 8 = 0 ∧
    attackRiskScore 20 6 8 = 0 ∧ attackDetected 20 6 8 = false ∧
    (BURST_THRESHOLD, SCAN_THRESHOLD, AUTH_FAIL_THRESHOLD) ≠ (15, 5, 5) ∧
    (W_b, W_s, W_a) ≠ (40, 35, 25) := by decide

/-- Claim C2 amended: with the thresholds (30, 8, 10), weights (30, 40, 30)
and cutoff 60 the code is configured with, a client that sends 30 requests to
8 distinct endpoints within one minute bucket, 10 of them returning status
401, gets flags (1, 1, 1), risk score 100 and attack_detected true. -/
theorem c2_code_scheme_scenario :
    reqCountBucket codeScenario (codeScenarioEvent 0) = 30 ∧
    uniqueEndpointsBucket codeScenario (codeScenarioEvent 0) = 8 ∧
    authFailsBucket codeScenario (codeScenarioEvent 0) = 10 ∧
    burstFlag 30 = 1 ∧ scanFlag 8 = 1 ∧ authAbuseFlag 10 = 1 ∧
    attackRiskScore 30 8 10 = 100 ∧ attackDetected 30 8 10 = true := by decide

/-- Claim C3: for every classifier probability p, the facade selects
BLOCK_IP_AND_REVOKE_TOKEN iff p is at least 0.95, THROTTLE_AND_STEPUP_AUTH
iff p lies in [0.85, 0.95), TEMP_RATE_LIMIT_MONITOR iff p lies in
[0.70, 0.85) and ALLOW iff p is below 0.70; the stream detector stores the
same bands under its short labels BLOCK and THROTTLE, and on every emitted
alert (p at least ALERT_THRESHOLD) its label MONITOR coincides with the
[0.70, 0.85) band. -/
theorem c3_action_bands (p : ℚ) :
    (appAction p = "BLOCK_IP_AND_REVOKE_TOKEN" ↔ 95 / 100 ≤ p) ∧
    (appAction p = "THROTTLE_AND_STEPUP_AUTH" ↔ 85 / 100 ≤ p ∧ p < 95 / 100) ∧
    (appAction p = "TEMP_RATE_LIMIT_MONITOR" ↔ 70 / 100 ≤ p ∧ p < 85 / 100) ∧
    (appAction p = "ALLOW" ↔ p < 70 / 100) ∧
    (day6Action p = "BLOCK" ↔ 95 / 100 ≤ p) ∧
    (day6Action p = "THROTTLE" ↔ 85 / 100 ≤ p ∧ p < 95 / 100) ∧
    (ALERT_THRESHOLD ≤ p →
      (day6Action p = "MONITOR" ↔ 70 / 100 ≤ p ∧ p < 85 / 100)) := by
  unfold appAction day6Action ALERT_THRESHOLD
  split_ifs with h1 h2 h3
  · exact ⟨iff_of_true rfl h1,
      iff_of_false (by decide) (fun hc => absurd h1 (not_le.mpr hc.2)),
      iff_of_false (by decide) (fun hc => absurd hc.2 (not_lt.mpr (by linarith))),
      iff_of_false (by decide) (not_lt.mpr (by linarith)),
      iff_of_true rfl h1,
      iff_of_false (by decide) (fun hc => absurd h1 (not_le.mpr hc.2)),
      fun _ => iff_of_false (by decide)
        (fun hc => absurd hc.2 (not_lt.mpr (by linarith)))⟩
  · exact ⟨iff_of_false (by decide) h1,
      iff_of_true rfl ⟨h2, not_le.mp h1⟩,
      iff_of_false (by decide) (fun hc => absurd hc.2 (not_lt.mpr h2)),
      iff_of_false (by decide) (not_lt.mpr (by linarith)),
      iff_of_false (by decide) h1,
      iff_of_true rfl ⟨h2, not_le.mp h1⟩,
      fun _ => iff_of_false (by decide)
        (fun hc => absurd hc.2 (not_lt.mpr h2))⟩
  · exact ⟨iff_of_false (by decide) h1,
      iff_of_false (by decide) (fun hc => absurd hc.1 h2),
      iff_of_true rfl ⟨h3, not_le.mp h2⟩,
      iff_of_false (by decide) (not_lt.mpr h3),
      iff_of_false (by decide) h1,
      iff_of_false (by decide) (fun hc => absurd hc.1 h2),
      fun _ => iff_of_true rfl ⟨h3, not_le.mp h2⟩⟩
  · exact ⟨iff_of_false (by decide) h1,
      iff_of_false (by decide) (fun hc => absurd hc.1 h2),
      iff_of_false (by decide) (fun hc => absurd hc.1 h3),
      iff_of_true rfl (not_le.mp h3),
      iff_of_false (by decide) h1,
      iff_of_false (by decide) (fun hc => absurd hc.1 h2),
      fun halert => absurd
        (le_trans (by norm_num : (70 : ℚ) / 100 ≤ 80 / 100) halert) h3⟩

/-- Claim C3 witness: at probability 0.80 the facade selects
TEMP_RATE_LIMIT_MONITOR and the stream detector labels the emitted alert
MONITOR. -/
theorem c3_action_bands_witness :
    appAction (80 / 100) = "TEMP_RATE_LIMIT_MONITOR" ∧
    day6Action (80 / 100) = "MONITOR" := by
  have h := c3_action_bands (80 / 100)
  exact ⟨h.2.2.1.mpr (by norm_num),
    (h.2.2.2.2.2.2 (by norm_num [ALERT_THRESHOLD])).mpr (by norm_num)⟩

/-- Claim C4: the stream detector's alert list equals, in order, the map of
the alert constructor over the subsequence of processed (feature-complete)
rows whose classifier probability reaches ALERT_THRESHOLD: an alert exists
for a processed row iff its probability meets the threshold, in observation
order. -/
theorem c4_alert_subsequence (clf : RawRow → ℚ) (rows : List RawRow) :
    (day6Run (some clf) rows).alerts
      = ((rows.filter rowComplete).filter
          (fun r => decide (ALERT_THRESHOLD ≤ clf r))).map
          (fun r => mkAlert r (clf r)) := by
  simp [day6Run, day6AlertsFold_spec]

/-- Claim C5 counterexample: for two events of one client in one minute
bucket, the request count the code attaches to the first event is already 2,
not 1 as the claimed running count demands: the batch groupby annotates every
event with the window total. -/
theorem c5_running_count_counterexample :
    reqCountBucket [evA, evB] evA = 2 ∧ reqCountBucket [evA, evB] evA ≠ 1 := by
  decide

/-- Claim C5 amended: the aggregation counts each event inclusively, but
attaches the window total to every event of the group: for N events sharing
client_ip and minute bucket, the request count attached to the k-th such
event equals N for every k, and in particular equals N after the Nth. -/
theorem c5_group_total_count (df : List Event) (e : Event)
    (_hmem : e ∈ df) (hkey : ∀ x ∈ df, sameBucket x e = true) :
    reqCountBucket df e = df.length := by
  unfold reqCountBucket
  rw [List.filter_eq_self.mpr hkey]

/-- Claim C5 witness: three concrete events of one client and minute bucket;
the count attached to the second one is 3. -/
theorem c5_group_total_count_witness :
    reqCountBucket [evA, evB, evC] evB = 3 :=
  c5_group_total_count [evA, evB, evC] evB (by decide) (by decide)

/-- Claim C6 counterexample: with a processable row available, the run
without a model processes nothing (day6 main returns before the loop), while
the same input under a loaded model processes one row: the stream does not
continue processing events when the classifier is unavailable. -/
theorem c6_stream_aborts_counterexample :
    rowComplete fullRow = true ∧
    (day6Run none [fullRow]).processed_total = 0 ∧
    (day6Run (some clfConst) [fullRow]).processed_total = 1 := by decide

/-- Claim C6 amended: when no classifier is loaded, the scoring facade still
answers every call with probability 0.0 and action MODEL_NOT_LOADED, and the
stream run emits no alert — but the stream refuses to start, processing zero
events, rather than continuing in degraded mode. -/
theorem c6_degraded_facade_stream_refuses (req : DetectRequest) (rows : List RawRow) :
    detect none req = ⟨0, false, "MODEL_NOT_LOADED", "none"⟩ ∧
    (day6Run none rows).alerts = [] ∧
    (day6Run none rows).processed_total = 0 :=
  ⟨rfl, rfl, rfl⟩

/-- Claim C7: for every frame and event, the per-window counters the
aggregation attaches satisfy request_count at least distinct_endpoints and
request_count at least auth_failure_count, both nonnegative. -/
theorem c7_counter_invariants (df : List Event) (e : Event) :
    uniqueEndpointsBucket df e ≤ reqCountBucket df e ∧
    authFailsBucket df e ≤ reqCountBucket df e ∧
    0 ≤ uniqueEndpointsBucket df e ∧ 0 ≤ authFailsBucket df e := by
  refine ⟨?_, ?_, Nat.zero_le _, Nat.zero_le _⟩
  · unfold uniqueEndpointsBucket reqCountBucket
    calc (((df.filter (fun x => sameBucket x e)).map (fun x => x.resource)).dedup).length
        ≤ ((df.filter (fun x => sameBucket x e)).map (fun x => x.resource)).length :=
          (List.dedup_sublist _).length_le
      _ = (df.filter (fun x => sameBucket x e)).length := List.length_map _ _
  · unfold authFailsBucket reqCountBucket
    exact List.countP_le_length _

/-- Claim C8: the persisted alert log has exactly the nine columns of the
spec in the spec's order (the client-identity column is spelled client_ip in
the code), each alert contributes exactly one row of that arity, and the
alert list is append-only: the alerts of a concatenated stream are the
concatenation of the alerts of its parts, in order. -/
theorem c8_alert_log_columns_append_only :
    day6AlertColumns = specAlertColumns.map specFieldToCode ∧
    day6AlertColumns.length = 9 ∧
    (∀ a : Alert, (alertToRow a).length = day6AlertColumns.length) ∧
    (∀ (clf : RawRow → ℚ) (l₁ l₂ : List RawRow),
      day6AlertsFold clf (l₁ ++ l₂) = day6AlertsFold clf l₁ ++ day6AlertsFold clf l₂) ∧
    (∀ (clf : RawRow → ℚ) (rows : List RawRow),
      ((day6Run (some clf) rows).alerts.map alertToRow).length
        = (day6Run (some clf) rows).alerts.length) := by
  refine ⟨by decide, rfl, fun a => rfl, ?_, ?_⟩
  · intro clf l₁ l₂
    simp [day6AlertsFold_spec, List.filter_append]
  · intro clf rows
    simp

/-- Claim C9 counterexample: runs over one malformed row and over two
malformed rows are observably identical — the pipeline keeps no skipped-event
count, it drops malformed rows silently. -/
theorem c9_no_skip_count_counterexample :
    ([badRow1].countP (fun r => !(rowComplete r))) = 1 ∧
    ([badRow1, badRow2].countP (fun r => !(rowComplete r))) = 2 ∧
    day6Run (some clfConst) [badRow1] = day6Run (some clfConst) [badRow1, badRow2] := by
  decide

/-- Claim C9 amended: a malformed event is skipped and processing continues —
no malformed event aborts a run, and the outputs for the well-formed events
are unchanged by the presence of malformed ones, in both the day6 stream
(dropna over the feature columns) and the day4 timestamp coercion — but no
skipped-event count is kept. -/
theorem c9_malformed_skipped_outputs_unchanged (clf : RawRow → ℚ)
    (rows : List RawRow) (raws : List RawEvent) :
    day6Run (some clf) rows = day6Run (some clf) (rows.filter rowComplete) ∧
    (day6Run (some clf) rows).processed_total = (rows.filter rowComplete).length ∧
    day4Clean raws = day4Clean (raws.filter (fun r => r.timestamp.isSome)) := by
  refine ⟨?_, rfl, day4Clean_drop_malformed raws⟩
  simp [day6Run, filter_self_idem]

/-- Claim C10: with a loaded model the facade reports predicted_attack true
exactly when the probability reaches 0.5; this cutoff is independent of the
action bands, so any probability in [0.5, 0.7) yields predicted_attack true
together with suggested_action ALLOW. -/
theorem c10_predicted_cutoff_half (m : DetectRequest → ℚ) (req : DetectRequest) :
    ((detect (some m) req).predicted_attack = true ↔ (1 : ℚ) / 2 ≤ m req) ∧
    ((1 : ℚ) / 2 ≤ m req → m req < 70 / 100 →
      (detect (some m) req).predicted_attack = true ∧
      (detect (some m) req).suggested_action = "ALLOW") := by
  constructor
  · simp [detect]
  · intro h1 h2
    have h70 : ¬ (70 / 100 : ℚ) ≤ m req := by linarith
    have h85 : ¬ (85 / 100 : ℚ) ≤ m req := by linarith
    have h95 : ¬ (95 / 100 : ℚ) ≤ m req := by linarith
    constructor
    · simp [detect]; linarith
    · simp [detect, appAction, h70, h85, h95]

/-- Claim C10 witness: a constant classifier at probability 0.6 on a concrete
request yields predicted_attack true with suggested_action ALLOW. -/
theorem c10_predicted_cutoff_half_witness :
    (detect (some (fun _ => (6 : ℚ) / 10)) req0).predicted_attack = true ∧
    (detect (some (fun _ => (6 : ℚ) / 10)) req0).suggested_action = "ALLOW" :=
  (c10_predicted_cutoff_half (fun _ => (6 : ℚ) / 10) req0).2
    (by norm_num) (by norm_num)

end WSO2Shield
